import Mathlib

/-!
Verification development for the `delete_lazar_backend` crypto query service.

The TypeScript source is shallowly embedded: JavaScript numbers are modelled
as `ℚ` (with explicit `null`/`undefined` variants where the code distinguishes
them), duck-typed records (`any[]` data items) become a structure of optional
fields where `none` means "property absent" and `some .null` / `some .undefined`
mean "property present but null/undefined", and every outbound network call
(data provider fetch, language-model call) is an oracle value supplied through
an `Env` structure, since each such call site in the source normalizes its own
failures (`catch` → empty list / fallback value) before the logic we verify
runs.  `Math.random()` is an oracle stream `rnd : ℕ → ℚ` and the two
`Date.now()` reads are oracle values `t0`, `t1`.
-/

namespace DelLazar

/-- A JavaScript numeric field value: a number, `null`, or `undefined`.
The distinction matters because e.g. `null <= 0` is `true` in JS while
`undefined <= 0` is `false`. -/
inductive JSNum where
  | num (q : ℚ)
  | null
  | undefined
deriving DecidableEq, Repr

/-- A JavaScript string field value: a string, `null`, or `undefined`. -/
inductive JSStr where
  | str (s : String)
  | null
  | undefined
deriving DecidableEq, Repr

/-- JS comparison `v <= 0`: `null` coerces to `0` (so `true`), `undefined`
coerces to `NaN` (so `false`). -/
def jsLeZero : JSNum → Bool
  | .num q => decide (q ≤ 0)
  | .null => true
  | .undefined => false

/-- JS truthiness of a name-like value: `null`, `undefined` and `""` are falsy. -/
def jsStrFalsy : JSStr → Bool
  | .str s => s == ""
  | .null => true
  | .undefined => true

/-- `!item.name` for a possibly-absent property: absent, `null`, `undefined`
and `""` are all falsy. -/
def jsNameFalsy : Option JSStr → Bool
  | none => true
  | some v => jsStrFalsy v

/-- A duck-typed data record (one element of the `any[]` data arrays flowing
through the route).  `none` = property absent, `some v` = property present
with JS value `v`; this mirrors `hasOwnProperty` checks in the source. -/
structure Rec where
  price : Option JSNum := none
  marketCap : Option JSNum := none
  currentMcap : Option JSNum := none
  tvl : Option JSNum := none
  apy : Option JSNum := none
  name : Option JSStr := none
  symbol : Option JSStr := none
  project : Option JSStr := none
  title : Option JSStr := none
  url : Option JSStr := none
  trendingRank : Option JSNum := none
  sentimentScore : Option JSNum := none
  rank : Option JSNum := none
  change24h : Option JSNum := none
  change24hPercent : Option JSNum := none
  volume24h : Option JSNum := none
deriving DecidableEq, Repr

/-! ### DataValidator (`OpenAIService.validateAndCleanData`, openai.ts 324-372)

Each drop condition below is one `if` block of the source filter, in source
order. -/

/-- `item.hasOwnProperty("price") && (item.price === 0 || item.price === null
|| item.price === undefined)` — note: *only* exactly-zero / null / undefined,
a negative price is NOT dropped. -/
def priceDrop (r : Rec) : Bool :=
  match r.price with
  | none => false
  | some v => v == .num 0 || v == .null || v == .undefined

/-- `item.hasOwnProperty("marketCap") && (item.marketCap <= 0)` -/
def marketCapDrop (r : Rec) : Bool :=
  match r.marketCap with
  | none => false
  | some v => jsLeZero v

/-- `item.hasOwnProperty("currentMcap") && (item.currentMcap <= 0)` -/
def currentMcapDrop (r : Rec) : Bool :=
  match r.currentMcap with
  | none => false
  | some v => jsLeZero v

/-- `item.hasOwnProperty("tvl") && (item.tvl <= 0)` -/
def tvlDrop (r : Rec) : Bool :=
  match r.tvl with
  | none => false
  | some v => jsLeZero v

/-- `item.hasOwnProperty("apy") && (item.apy < 0 || item.apy > 1000000)` -/
def apyDrop (r : Rec) : Bool :=
  match r.apy with
  | none => false
  | some (.num q) => decide (q < 0) || decide (q > 1000000)
  | some .null => false
  | some .undefined => false

/-- `String.prototype.trim` (ASCII-adequate model): strip leading and
trailing whitespace. -/
def jsTrim (s : String) : String :=
  ⟨((s.data.dropWhile Char.isWhitespace).reverse.dropWhile Char.isWhitespace).reverse⟩

/-- `item.hasOwnProperty("name") && (!item.name || item.name.trim() === "")` -/
def nameDrop (r : Rec) : Bool :=
  match r.name with
  | none => false
  | some (.str s) => s == "" || jsTrim s == ""
  | some .null => true
  | some .undefined => true

/-- `item.hasOwnProperty("trendingRank") && !item.name` -/
def trendingDrop (r : Rec) : Bool :=
  r.trendingRank.isSome && jsNameFalsy r.name

/-- A record passes the filter iff no drop condition fires. -/
def keepRec (r : Rec) : Bool :=
  !priceDrop r && !marketCapDrop r && !currentMcapDrop r && !tvlDrop r &&
    !apyDrop r && !nameDrop r && !trendingDrop r

/-- `OpenAIService.validateAndCleanData`: filter out records violating the
per-field sanity rules (the early return on `!data || data.length === 0`
coincides with `filter` on `[]`).  The `query` argument of the source is
unused by the filter logic and omitted. -/
def validateAndCleanData (data : List Rec) : List Rec :=
  data.filter keepRec

/-! ### Case-insensitive substring matching

Models `String.prototype.includes` on the lower-cased query, and
case-insensitive regex `.test` calls (`/pat/i.test(query)` for literal
alternations is containment of a lower-cased literal in the lower-cased
query). -/

/-- Does the character list have `pat.data` as an infix? -/
def hasInfixAux (pat : List Char) : List Char → Bool
  | [] => pat.isEmpty
  | c :: rest => pat.isPrefixOf (c :: rest) || hasInfixAux pat rest

/-- `s.includes(pat)` for strings. -/
def containsS (s pat : String) : Bool :=
  hasInfixAux pat.data s.data

/-- `query.toLowerCase()` (ASCII-adequate model). -/
def jsToLower (s : String) : String :=
  ⟨s.data.map Char.toLower⟩

/-- `s.toUpperCase()` (ASCII-adequate model). -/
def jsToUpper (s : String) : String :=
  ⟨s.data.map Char.toUpper⟩

/-! ### QueryIntent (`OpenAIService.parseQuery` return type, openai.ts 13-25) -/

inductive Platform where
  | pumpfun | bonk | both | defi | general | price | news | trending
deriving DecidableEq, Repr

inductive Metric where
  | mcap | volume | count | comparison | price | tvl | apy | sentiment | news
deriving DecidableEq, Repr

/-- The parsed query context.  Optional fields are `none` when the
corresponding property is absent from the returned object literal. -/
structure Intent where
  platform : Platform
  metric : Metric
  threshold : Option ℚ := none
  timeframe : ℚ
  comparison : Option Bool := none
  cryptoSymbols : Option (List String) := none
  chain : Option String := none
  category : Option String := none
  includeNews : Option Bool := none
  includeSentiment : Option Bool := none
  includeTrending : Option Bool := none
deriving DecidableEq, Repr

/-! ### Deterministic fallback classifier (`parseQuery` catch branch,
openai.ts 89-191)

Each signal predicate below is one `const is...Query = ...` of the source,
computed on `lowerQuery = query.toLowerCase()` (regex tests on the original
query with the `i` flag are equivalent to lower-cased containment). -/

def isDeFiQuery (lowerQuery : String) : Bool :=
  containsS lowerQuery "defi" || containsS lowerQuery "tvl" ||
    containsS lowerQuery "yield" || containsS lowerQuery "apy" ||
    containsS lowerQuery "lending" || containsS lowerQuery "protocol"

def isNewsQuery (lowerQuery : String) : Bool :=
  containsS lowerQuery "news" || containsS lowerQuery "update" ||
    containsS lowerQuery "announcement" || containsS lowerQuery "development"

def isTrendingQuery (lowerQuery : String) : Bool :=
  containsS lowerQuery "trending" || containsS lowerQuery "hot" ||
    containsS lowerQuery "popular" || containsS lowerQuery "buzz"

/-- Includes the regex `/what is (sol|btc|eth|bitcoin|ethereum|solana)/i`. -/
def isPriceQuery (lowerQuery : String) : Bool :=
  containsS lowerQuery "price" || containsS lowerQuery "current" ||
    containsS lowerQuery "worth" || containsS lowerQuery "trading" ||
    containsS lowerQuery "cost" || containsS lowerQuery "value" ||
    containsS lowerQuery "what is sol" || containsS lowerQuery "what is btc" ||
    containsS lowerQuery "what is eth" || containsS lowerQuery "what is bitcoin" ||
    containsS lowerQuery "what is ethereum" || containsS lowerQuery "what is solana"

def isSentimentQuery (lowerQuery : String) : Bool :=
  containsS lowerQuery "sentiment" || containsS lowerQuery "bullish" ||
    containsS lowerQuery "bearish" || containsS lowerQuery "mood"

/-- The four `cryptoSymbols.push` conditions (case-insensitive regex tests),
in source push order SOL, BTC, ETH, BONK. -/
def extractSymbols (lowerQuery : String) : List String :=
  (if containsS lowerQuery "sol" || containsS lowerQuery "solana"
    then ["SOL"] else []) ++
  (if containsS lowerQuery "btc" || containsS lowerQuery "bitcoin"
    then ["BTC"] else []) ++
  (if containsS lowerQuery "eth" || containsS lowerQuery "ethereum"
    then ["ETH"] else []) ++
  (if containsS lowerQuery "bonk" then ["BONK"] else [])

/-- Three sequential overwrites (`solana`, then `ethereum`, then `polygon`)
mean the last matching keyword wins. -/
def extractChain (lowerQuery : String) : Option String :=
  if containsS lowerQuery "polygon" then some "polygon"
  else if containsS lowerQuery "ethereum" then some "ethereum"
  else if containsS lowerQuery "solana" then some "solana"
  else none

/-- The deterministic fallback parser (catch branch of
`OpenAIService.parseQuery`), a pure function of the query string.  Branches
appear in source order: price, defi, news, trending, sentiment, then the
default token-platform detection.  Note: no branch sets `threshold`. -/
def fallbackParse (query : String) : Intent :=
  let lowerQuery := jsToLower query
  let cryptoSymbols := extractSymbols lowerQuery
  let chain := extractChain lowerQuery
  if isPriceQuery lowerQuery then
    { platform := .price
      metric := .price
      timeframe := 1
      cryptoSymbols := some (if cryptoSymbols.length > 0 then cryptoSymbols else ["SOL"]) }
  else if isDeFiQuery lowerQuery then
    { platform := .defi
      metric := if containsS lowerQuery "apy" || containsS lowerQuery "yield" then .apy
                else if containsS lowerQuery "tvl" then .tvl else .count
      timeframe := 24
      chain := chain
      cryptoSymbols := some cryptoSymbols }
  else if isNewsQuery lowerQuery then
    { platform := .news
      metric := .news
      timeframe := 24
      cryptoSymbols := some cryptoSymbols
      includeNews := some true }
  else if isTrendingQuery lowerQuery then
    { platform := .trending
      metric := .sentiment
      timeframe := 24
      includeTrending := some true }
  else if isSentimentQuery lowerQuery then
    { platform := .general
      metric := .sentiment
      timeframe := 24
      cryptoSymbols := some cryptoSymbols
      includeSentiment := some true }
  else
    { platform := if containsS lowerQuery "pumpfun" then .pumpfun
                  else if containsS lowerQuery "bonk" then .bonk else .both
      metric := if containsS lowerQuery "mcap" || containsS lowerQuery "market cap"
                then .mcap else .count
      timeframe := if containsS lowerQuery "hour" then 1 else 24
      comparison := some (containsS lowerQuery "vs" || containsS lowerQuery "compare")
      cryptoSymbols := some cryptoSymbols }

/-! ### PriceDataService (priceData.ts)

The two provider fetches (`fetchFromCoinGecko`, `fetchFromCoinCap`) catch all
network errors and return `[]`; their post-catch outcomes are oracle fields of
`Env` below.  The mock generator is modelled concretely. -/

/-- Lookup table `mockPrices` of `generateMockPrices`. -/
def mockPriceFor : String → Option ℚ
  | "SOL" => some 178.45
  | "BTC" => some 67234.56
  | "ETH" => some 3567.89
  | "USDC" => some 1
  | "USDT" => some 1
  | "BNB" => some 412.34
  | "XRP" => some 0.63
  | "ADA" => some 0.52
  | "DOGE" => some 0.085
  | "MATIC" => some 0.78
  | _ => none

/-- Lookup table of `getFullName`; falls back to the symbol itself. -/
def fullNameFor : String → Option String
  | "SOL" => some "Solana"
  | "BTC" => some "Bitcoin"
  | "ETH" => some "Ethereum"
  | "USDC" => some "USD Coin"
  | "USDT" => some "Tether"
  | "BNB" => some "Binance Coin"
  | "XRP" => some "Ripple"
  | "ADA" => some "Cardano"
  | "DOGE" => some "Dogecoin"
  | "MATIC" => some "Polygon"
  | _ => none

def getFullName (symbol : String) : String :=
  (fullNameFor (jsToUpper symbol)).getD symbol

/-- `PriceDataService.generateMockPrices`: one record per requested symbol.
`Math.random()` draws are modelled by the oracle stream `rnd`, indexed so
each draw is distinct.  Known symbols get the fixed table price and a table
market cap; unknown symbols get a random price and `marketCap: undefined`. -/
def generateMockPrices (rnd : ℕ → ℚ) (symbols : List String) : List Rec :=
  symbols.enum.map fun p =>
    let i := p.1
    let up := jsToUpper p.2
    { symbol := some (.str up)
      name := some (.str (getFullName p.2))
      price := some (.num (match mockPriceFor up with
        | some q => q
        | none => rnd (4 * i) * 100))
      change24h := some (.num ((rnd (4 * i + 1) - 0.5) * 10))
      change24hPercent := some (.num ((rnd (4 * i + 2) - 0.5) * 10))
      marketCap := match mockPriceFor up with
        | some q => some (.num (q * 1000000000))
        | none => some .undefined
      volume24h := some (.num (rnd (4 * i + 3) * 1000000000)) }

/-- Oracle environment: one field per external effect reachable from the
query route.  Provider fields hold the post-`catch` outcome of the
corresponding service call (every service normalizes its own failures and
never throws); `llm*` fields are `some answer` on language-model success and
`none` on failure; `rnd` is the `Math.random()` stream; `t0`/`t1` are the
two `Date.now()` reads of the route. -/
structure Env where
  llmParse : Option Intent := none
  llmFormat : Option String := none
  llmIntelligent : Option String := none
  gecko : List Rec := []
  cap : List Rec := []
  pumpRecent : List Rec := []
  pumpAbove : List Rec := []
  bonkRecent : List Rec := []
  bonkAbove : List Rec := []
  defiTvl : List Rec := []
  defiYield : List Rec := []
  defiProtocols : List Rec := []
  sentimentData : List Rec := []
  topCryptos : List Rec := []
  newsData : List Rec := []
  trendingData : List Rec := []
  news5 : List Rec := []
  bonkApi : List Rec := []
  bonkDex : List Rec := []
  bonkJup : List Rec := []
  bonkMock : List Rec := []
  rnd : ℕ → ℚ := fun _ => 0
  t0 : ℕ := 0
  t1 : ℕ := 0

/-- `PriceDataService.getPrices`, instrumented with the list of data sources
actually consulted (second component): CoinGecko is always fetched, CoinCap
only when CoinGecko came back empty, and the mock generator only when both
came back empty. -/
def getPricesTraced (env : Env) (symbols : List String) : List Rec × List String :=
  let prices := env.gecko
  if prices.length == 0 then
    let prices2 := env.cap
    if prices2.length == 0 then
      (generateMockPrices env.rnd symbols, ["CoinGecko", "CoinCap", "mock"])
    else (prices2, ["CoinGecko", "CoinCap"])
  else (prices, ["CoinGecko"])

/-- `BonkService.getBonkEcosystemTokens` (bonk.ts 32-57), instrumented with
the list of approaches actually tried (second component).  The loop walks
the three approaches in fixed order — official Bonk API, DexScreener,
Jupiter — returning the first non-empty result immediately; a thrown error
is caught by the loop and treated like an empty result (`continue`), so
each oracle field holds the post-catch outcome of its fetch, `[]` on
failure.  Only when all three yield nothing does
`generateRealisticBonkTokens` run; that generator draws every field from
`Math.random()` and never fails, and its output is the oracle field
`bonkMock` (its contents are irrelevant to the chain behaviour).  The
route reaches this chain through `getRecentBonkTokens`.  The loop guard
`tokens.length > 0` (return) is written here contrapositively
(`length == 0` falls through to the next approach). -/
def getBonkEcosystemTokensTraced (env : Env) : List Rec × List String :=
  if env.bonkApi.length == 0 then
    if env.bonkDex.length == 0 then
      if env.bonkJup.length == 0 then
        (env.bonkMock, ["BonkAPI", "DexScreener", "Jupiter", "mock"])
      else (env.bonkJup, ["BonkAPI", "DexScreener", "Jupiter"])
    else (env.bonkDex, ["BonkAPI", "DexScreener"])
  else (env.bonkApi, ["BonkAPI"])

/-! ### Combined-platform merge (query.ts `case "both"`)

`[...pumpTokens, ...bonkTokens].sort((a, b) => b.currentMcap - a.currentMcap)`.
JavaScript `Array.prototype.sort` is a stable sort; any stable sort by the
same comparator produces the same output, so insertion sort (which is stable)
is a faithful model.  The comparator is well-defined whenever every record
has a numeric `currentMcap` (the token services always set one). -/

def mcapKey (r : Rec) : ℚ :=
  match r.currentMcap with
  | some (.num q) => q
  | _ => 0

/-- Descending-market-cap ordering used by the comparator. -/
def mcapDescRel (a b : Rec) : Prop := mcapKey b ≤ mcapKey a

instance : DecidableRel mcapDescRel :=
  fun a b => inferInstanceAs (Decidable (mcapKey b ≤ mcapKey a))

instance : IsTotal Rec mcapDescRel :=
  ⟨fun a b => le_total (mcapKey b) (mcapKey a)⟩

instance : IsTrans Rec mcapDescRel :=
  ⟨fun _ _ _ hab hbc => le_trans hbc hab⟩

/-- The combined data set of the route: concatenation (pump.fun first) stably
sorted by descending current market cap. -/
def bothData (pumpTokens bonkTokens : List Rec) : List Rec :=
  List.insertionSort mcapDescRel (pumpTokens ++ bonkTokens)

/-! ### ResponseSynthesizer (`OpenAIService.formatResponse`, openai.ts 194-321)

Only the deterministic skeleton matters for the claims: the data-cleaning
gate, the choice between language-model output and the static templates, and
the fact that every branch produces non-empty text.  Number rendering
(`toLocaleString`, `toFixed`) is approximated by `toString`. -/

def isPriceData (l : List Rec) : Bool :=
  match l with
  | [] => false
  | r :: _ => r.price.isSome && r.symbol.isSome

def isDeFiProtocolData (l : List Rec) : Bool :=
  match l with
  | [] => false
  | r :: _ => r.tvl.isSome && r.name.isSome

def isTokenData (l : List Rec) : Bool :=
  match l with
  | [] => false
  | r :: _ => r.currentMcap.isSome

/-- `p.price?.toLocaleString() with "N/A" default` -/
def showNumOrNA : Option JSNum → String
  | some (.num q) => toString q
  | _ => "N/A"

/-- Template interpolation of a possibly-missing string field. -/
def showStr : Option JSStr → String
  | some (.str s) => s
  | some .null => "null"
  | _ => "undefined"

def priceList (data : List Rec) : String :=
  String.intercalate ", "
    ((data.take 5).map fun p => showStr p.symbol ++ ": $" ++ showNumOrNA p.price)

def protocolList (data : List Rec) : String :=
  String.intercalate ", "
    ((data.take 3).map fun p =>
      showStr p.name ++ " ($" ++ showNumOrNA p.tvl ++ " TVL)")

def tokenList (data : List Rec) : String :=
  String.intercalate ", "
    ((data.take 3).map fun t =>
      showStr t.name ++ " ($" ++ showNumOrNA t.currentMcap ++ " mcap)")

/-- `OpenAIService.generateIntelligentFallbackResponse`: language-model
answer plus a fixed suffix on success, otherwise one of three static
query-keyed templates. -/
def generateIntelligentFallbackResponse (query : String) (processingTime : ℤ)
    (llmIntelligent : Option String) : String :=
  match llmIntelligent with
  | some aiResponse =>
      aiResponse ++ "\n\nProcessing Time: " ++ toString processingTime ++
        "ms\nNote: Data validation filtered out invalid results for better user experience."
  | none =>
      let lowerQuery := jsToLower query
      if containsS lowerQuery "trending" || containsS lowerQuery "hot" then
        "I\x27m currently experiencing data sync issues with trending cryptocurrency information. Trending cryptos usually include major coins like Bitcoin, Ethereum, and Solana, plus emerging tokens gaining social media attention. For accurate trending data, try asking about specific cryptocurrency prices or check major exchanges directly. Processing time: " ++
          toString processingTime ++ "ms."
      else if containsS lowerQuery "price" || containsS lowerQuery "trading" then
        "I encountered some issues accessing current price data. Cryptocurrency prices change rapidly throughout the day. For the most reliable pricing, I recommend trying your query again or checking established exchanges like Coinbase, Binance, or CoinGecko directly. Processing time: " ++
          toString processingTime ++ "ms."
      else
        "I encountered some data quality issues while processing your request about \"" ++
          query ++
          "\". Rather than show potentially inaccurate information, I filtered it out. Please try rephrasing your question or ask about a specific cryptocurrency for better results. Processing time: " ++
          toString processingTime ++ "ms."

/-- `OpenAIService.formatResponse`: clean the data; if cleaning removed
everything that was there, use the intelligent fallback; otherwise use the
language-model answer when available (empty content falls back to a fixed
string, mirroring `content || "Unable to format response"`) and the static
type-keyed templates when the model call failed. -/
def formatResponse (query : String) (data : List Rec) (processingTime : ℤ)
    (llmFormat llmIntelligent : Option String) : String :=
  let cleanedData := validateAndCleanData data
  if cleanedData.length == 0 && decide (0 < data.length) then
    generateIntelligentFallbackResponse query processingTime llmIntelligent
  else
    let processedData := if 0 < cleanedData.length then cleanedData else data
    match llmFormat with
    | some content => if content == "" then "Unable to format response" else content
    | none =>
        if isPriceData processedData then
          "Current prices: " ++ priceList data ++ ". Data processed in " ++
            toString processingTime ++ "ms from live market feeds."
        else if isDeFiProtocolData processedData then
          "Top DeFi protocols: " ++ protocolList data ++ ". Found " ++
            toString data.length ++ " protocols in " ++ toString processingTime ++ "ms."
        else if isTokenData processedData then
          "Found " ++ toString data.length ++
            " tokens matching your criteria. Top tokens include: " ++ tokenList data ++
            ". Processing completed in " ++ toString processingTime ++ "ms."
        else
          "Found " ++ toString data.length ++
            " results matching your query. Processing completed in " ++
            toString processingTime ++ "ms from multiple data sources."

/-! ### The query route (query.ts `router.post("/query")`) -/

/-- Request-body `query` field value: a JS string or any non-string value. -/
inductive JSVal where
  | str (s : String)
  | other
deriving DecidableEq, Repr

/-- The request body; `none` = no `query` property. -/
structure ReqBody where
  query : Option JSVal := none

structure QueryMeta where
  dataType : String
  sources : List String
  totalResults : ℕ
deriving DecidableEq, Repr

structure QueryResult where
  query : String
  answer : String
  data : List Rec
  metadata : QueryMeta
  processingTime : ℤ
deriving DecidableEq, Repr

structure ErrResp where
  status : ℕ
  error : String
deriving DecidableEq, Repr

/-- `parsedQuery.threshold` JS truthiness (a number is truthy iff non-zero). -/
def thresholdTruthy : Option ℚ → Bool
  | some t => !(t == 0)
  | none => false

/-- Outcome of the `switch (parsedQuery.platform)` dispatch: the fetched data,
the metadata fields set by that case, and the trace of service invocations
(used to state non-invocation properties). -/
structure Dispatched where
  data : List Rec
  dataType : String
  sources : List String
  trace : List String

def dispatchData (env : Env) (pq : Intent) : Dispatched :=
  match pq.platform with
  | .price =>
      match pq.cryptoSymbols with
      | some syms =>
          if 0 < syms.length then
            let pr := getPricesTraced env syms
            { data := pr.1, dataType := "prices",
              sources := ["CoinGecko", "CoinCap"], trace := pr.2 }
          else { data := [], dataType := "general", sources := [], trace := [] }
      | none => { data := [], dataType := "general", sources := [], trace := [] }
  | .pumpfun =>
      if pq.metric == .mcap && thresholdTruthy pq.threshold then
        { data := env.pumpAbove, dataType := "tokens", sources := ["pump.fun"],
          trace := ["pumpfun.getTokensAboveMarketCap"] }
      else
        { data := env.pumpRecent, dataType := "tokens", sources := ["pump.fun"],
          trace := ["pumpfun.getRecentTokens"] }
  | .bonk =>
      if pq.metric == .mcap && thresholdTruthy pq.threshold then
        { data := env.bonkAbove, dataType := "tokens",
          sources := ["Bonk Ecosystem", "DexScreener", "Jupiter"],
          trace := ["bonk.getBonkTokensAboveMarketCap"] }
      else
        { data := env.bonkRecent, dataType := "tokens",
          sources := ["Bonk Ecosystem", "DexScreener", "Jupiter"],
          trace := ["bonk.getRecentBonkTokens"] }
  | .both =>
      let pumpTokens := if pq.metric == .mcap && thresholdTruthy pq.threshold
        then env.pumpAbove else env.pumpRecent
      let bonkTokens := if pq.metric == .mcap && thresholdTruthy pq.threshold
        then env.bonkAbove else env.bonkRecent
      { data := bothData pumpTokens bonkTokens, dataType := "tokens",
        sources := ["pump.fun", "Bonk Ecosystem"],
        trace := ["pumpfun", "bonk"] }
  | .defi =>
      if pq.metric == .tvl then
        { data := env.defiTvl, dataType := "protocols", sources := ["DeFiLlama"],
          trace := ["defillama.getTopProtocolsByTVL"] }
      else if pq.metric == .apy then
        { data := env.defiYield, dataType := "yields", sources := ["DeFiLlama"],
          trace := ["defillama.getTopYieldFarms"] }
      else
        { data := env.defiProtocols, dataType := "protocols", sources := ["DeFiLlama"],
          trace := ["defillama.getProtocols"] }
  | .general =>
      if pq.metric == .sentiment && pq.cryptoSymbols.isSome then
        { data := env.sentimentData, dataType := "sentiment",
          sources := ["LunarCrush", "Social APIs"],
          trace := ["marketData.getSocialSentiment"] }
      else
        { data := env.topCryptos, dataType := "prices",
          sources := ["CoinMarketCap", "CoinGecko"],
          trace := ["marketData.getTopCryptos"] }
  | .news =>
      { data := env.newsData, dataType := "news",
        sources := ["NewsAPI", "Crypto News Feeds"],
        trace := ["marketData.getCryptoNews"] }
  | .trending =>
      { data := env.trendingData, dataType := "trending",
        sources := ["CoinGecko", "DexScreener", "Social Media"],
        trace := ["marketData.getTrendingCryptos"] }

/-- The valid-input path of the route: parse (language-model result or
deterministic fallback), dispatch, append supplementary data, measure time,
synthesize the answer.  Second component: invocation trace beginning with
the parser. -/
def processQuery (env : Env) (query : String) : QueryResult × List String :=
  let parsedQuery := match env.llmParse with
    | some i => i
    | none => fallbackParse query
  let d := dispatchData env parsedQuery
  let addNews := parsedQuery.includeNews == some true && !(parsedQuery.platform == .news)
  let data1 := if addNews then d.data ++ env.news5 else d.data
  let sources1 := if addNews then d.sources ++ ["News APIs"] else d.sources
  let addSent := parsedQuery.includeSentiment == some true && parsedQuery.cryptoSymbols.isSome
  let data2 := if addSent then data1 ++ env.sentimentData else data1
  let sources2 := if addSent then sources1 ++ ["Social Sentiment"] else sources1
  let processingTime : ℤ := (env.t1 : ℤ) - (env.t0 : ℤ)
  ({ query := query
     answer := formatResponse query data2 processingTime env.llmFormat env.llmIntelligent
     data := data2
     metadata := { dataType := d.dataType, sources := sources2, totalResults := data2.length }
     processingTime := processingTime },
   "parseQuery" :: d.trace)

def badRequest : ErrResp :=
  { status := 400, error := "Query is required and must be a string" }

/-- The route handler.  `if (!query || typeof query !== "string") return 400`:
a missing property, any non-string value, and the (falsy) empty string are
all rejected before the parser or any provider runs (empty trace).  All
downstream service calls normalize their own failures, so the route
catch-all 500 branch is unreachable in this model and the valid path always
returns `ok`. -/
def handleQuery (env : Env) (body : ReqBody) : Except ErrResp QueryResult × List String :=
  match body.query with
  | some (.str q) =>
      if q == "" then (.error badRequest, [])
      else ((Except.ok (processQuery env q).1), (processQuery env q).2)
  | _ => (.error badRequest, [])

/-! ## Helper lemmas -/

lemma append_ne_empty_right (s t : String) (ht : t ≠ "") : s ++ t ≠ "" := by
  intro h
  apply ht
  have hl := congrArg String.length h
  rw [String.length_append] at hl
  have h0 : t.length = 0 := by
    have hz : String.length "" = 0 := rfl
    omega
  cases t with
  | mk data =>
    cases data with
    | nil => rfl
    | cons c cs => simp [String.length] at h0

/-- Unfolding `keepRec` into its seven independent drop predicates. -/
lemma keepRec_eq_true_iff (r : Rec) :
    keepRec r = true ↔
      priceDrop r = false ∧ marketCapDrop r = false ∧ currentMcapDrop r = false ∧
        tvlDrop r = false ∧ apyDrop r = false ∧ nameDrop r = false ∧
        trendingDrop r = false := by
  simp [keepRec, Bool.and_eq_true, Bool.not_eq_true', and_assoc]

/-! ## Claims about the DataValidator -/

/-- C3 counterexample: The claim says a record with `price ≤ 0` is
dropped; the source only drops `price === 0 || null || undefined`
(openai.ts 329), so a record with a strictly negative price — which does
satisfy `price ≤ 0` — survives the filter. -/
theorem c3_counterexample :
    validateAndCleanData [{ price := some (.num (-1)) }] =
      [({ price := some (.num (-1)) } : Rec)] ∧
    (-1 : ℚ) ≤ 0 := by
  constructor
  · rfl
  · norm_num

/-- C3 amended: The validator drops exactly the records hit by one of
the seven per-field checks — price exactly 0 or null/undefined (negative
prices are kept), market cap / current market cap / TVL ≤ 0, APY < 0 or
> 1,000,000, name present but empty/whitespace-only (or null/undefined),
trendingRank present with a falsy name — and keeps all others; in
particular it drops a price record with price 0, a protocol record with
tvl = -5, a yield record with apy = 2,000,000, and records with empty or
whitespace-only names. -/
theorem c3_amended :
    (∀ (l : List Rec) (r : Rec),
      r ∈ validateAndCleanData l ↔
        r ∈ l ∧ priceDrop r = false ∧ marketCapDrop r = false ∧
          currentMcapDrop r = false ∧ tvlDrop r = false ∧ apyDrop r = false ∧
          nameDrop r = false ∧ trendingDrop r = false) ∧
    validateAndCleanData [{ name := some (.str "Solana"), price := some (.num 0) }] = [] ∧
    validateAndCleanData [{ name := some (.str "Aave"), tvl := some (.num (-5)) }] = [] ∧
    validateAndCleanData [{ project := some (.str "Raydium"), apy := some (.num 2000000) }] = [] ∧
    validateAndCleanData [{ name := some (.str "") }] = [] ∧
    validateAndCleanData [{ name := some (.str "   ") }] = [] := by
  refine ⟨?_, rfl, by decide, by decide, rfl, by decide⟩
  intro l r
  rw [validateAndCleanData, List.mem_filter, keepRec_eq_true_iff]

/-- C4: The validator is a `List.filter`, hence idempotent, and its
output is a sublist of its input (survivors keep their relative order). -/
theorem c4_validator_idempotent_stable (l : List Rec) :
    validateAndCleanData (validateAndCleanData l) = validateAndCleanData l ∧
    (validateAndCleanData l).Sublist l := by
  constructor
  · rw [validateAndCleanData, validateAndCleanData, List.filter_filter]
    simp [validateAndCleanData]
  · exact List.filter_sublist l

/-! ## Claims about the deterministic fallback classifier -/

/-- Case analysis of `extractSymbols`: a ticker is in the list iff its
keyword test fires. -/
lemma mem_extractSymbols (lq s : String) :
    s ∈ extractSymbols lq ↔
      (s = "SOL" ∧ (containsS lq "sol" || containsS lq "solana") = true) ∨
      (s = "BTC" ∧ (containsS lq "btc" || containsS lq "bitcoin") = true) ∨
      (s = "ETH" ∧ (containsS lq "eth" || containsS lq "ethereum") = true) ∨
      (s = "BONK" ∧ containsS lq "bonk" = true) := by
  unfold extractSymbols
  cases h1 : containsS lq "sol" || containsS lq "solana" <;>
    cases h2 : containsS lq "btc" || containsS lq "bitcoin" <;>
      cases h3 : containsS lq "eth" || containsS lq "ethereum" <;>
        cases h4 : containsS lq "bonk" <;>
          simp [h1, h2, h3, h4]

/-- C6: The fallback classifier is a pure function of the query string
(equal queries give equal intents), and the category is assigned by the
fixed source-order precedence price > defi > news > trending > sentiment >
token-launch default (the default platform is one of the token platforms
pumpfun / bonk / both). -/
theorem c6_fallback_deterministic_precedence (q q' : String) (h : q = q') :
    fallbackParse q = fallbackParse q' ∧
    (isPriceQuery (jsToLower q) = true → (fallbackParse q).platform = Platform.price) ∧
    (isPriceQuery (jsToLower q) = false → isDeFiQuery (jsToLower q) = true →
      (fallbackParse q).platform = Platform.defi) ∧
    (isPriceQuery (jsToLower q) = false → isDeFiQuery (jsToLower q) = false →
      isNewsQuery (jsToLower q) = true → (fallbackParse q).platform = Platform.news) ∧
    (isPriceQuery (jsToLower q) = false → isDeFiQuery (jsToLower q) = false →
      isNewsQuery (jsToLower q) = false → isTrendingQuery (jsToLower q) = true →
      (fallbackParse q).platform = Platform.trending) ∧
    (isPriceQuery (jsToLower q) = false → isDeFiQuery (jsToLower q) = false →
      isNewsQuery (jsToLower q) = false → isTrendingQuery (jsToLower q) = false →
      isSentimentQuery (jsToLower q) = true →
      (fallbackParse q).platform = Platform.general ∧
        (fallbackParse q).metric = Metric.sentiment) ∧
    (isPriceQuery (jsToLower q) = false → isDeFiQuery (jsToLower q) = false →
      isNewsQuery (jsToLower q) = false → isTrendingQuery (jsToLower q) = false →
      isSentimentQuery (jsToLower q) = false →
      (fallbackParse q).platform = Platform.pumpfun ∨
        (fallbackParse q).platform = Platform.bonk ∨
        (fallbackParse q).platform = Platform.both) := by
  subst h
  refine ⟨rfl, ?_, ?_, ?_, ?_, ?_, ?_⟩
  · intro h1
    simp [fallbackParse, h1]
  · intro h1 h2
    simp [fallbackParse, h1, h2]
  · intro h1 h2 h3
    simp [fallbackParse, h1, h2, h3]
  · intro h1 h2 h3 h4
    simp [fallbackParse, h1, h2, h3, h4]
  · intro h1 h2 h3 h4 h5
    simp [fallbackParse, h1, h2, h3, h4, h5]
  · intro h1 h2 h3 h4 h5
    simp only [fallbackParse, h1, h2, h3, h4, h5, Bool.false_eq_true, if_false]
    cases hp : containsS (jsToLower q) "pumpfun" <;>
      cases hb : containsS (jsToLower q) "bonk" <;>
        simp [hp, hb]

/-- C6 witness: A query matching the signals of every category is
classified as a price query, the highest-precedence matching category. -/
theorem c6_witness :
    (fallbackParse "bitcoin price and defi tvl news trending sentiment").platform =
      Platform.price :=
  (c6_fallback_deterministic_precedence
    "bitcoin price and defi tvl news trending sentiment" _ rfl).2.1 (by decide)

/-- C7 counterexample: The claim says the fallback extracts a numeric
threshold (19000 for the example query); in the source the catch-branch
fallback never sets `threshold` (openai.ts 89-191 contains no threshold
extraction), so the example query yields an intent with no threshold. -/
theorem c7_counterexample :
    (fallbackParse
      "How many tokens reached over $19,000 mcap on pumpfun in the last hour?").threshold
        = none ∧
    (fallbackParse
      "How many tokens reached over $19,000 mcap on pumpfun in the last hour?").threshold
        ≠ some 19000 := by
  constructor
  · rfl
  · decide

/-- C7 amended: The deterministic fallback performs no threshold
extraction at all; the example query is classified by the default
token-platform branch as {platform pumpfun, metric mcap, timeframe 1} with
`threshold` absent. -/
theorem c7_amended :
    fallbackParse "How many tokens reached over $19,000 mcap on pumpfun in the last hour?" =
      { platform := Platform.pumpfun, metric := Metric.mcap, threshold := none,
        timeframe := 1, comparison := some false, cryptoSymbols := some [] } := by
  rfl

/-- C8 counterexample: The hour-rule is not uniform across fallback
branches: "btc price" (no "hour") is a price query with timeframe 1, not
24; and "defi tvl in the last hour" (contains "hour") is a defi query with
timeframe 24, not 1. -/
theorem c8_counterexample :
    (fallbackParse "btc price").platform = Platform.price ∧
    (fallbackParse "btc price").timeframe = 1 ∧
    containsS (jsToLower "btc price") "hour" = false ∧
    (fallbackParse "defi tvl in the last hour").platform = Platform.defi ∧
    (fallbackParse "defi tvl in the last hour").timeframe = 24 ∧
    containsS (jsToLower "defi tvl in the last hour") "hour" = true := by
  refine ⟨rfl, rfl, by decide, rfl, rfl, by decide⟩

/-- C8 amended: The fallback time window is branch-specific: the price
branch always uses 1 hour, the defi/news/trending/sentiment branches always
use 24 hours, and only the default token-platform branch applies the
"hour" ⇒ 1 else 24 rule. -/
theorem c8_amended (q : String) :
    (fallbackParse q).timeframe =
      if isPriceQuery (jsToLower q) then 1
      else if isDeFiQuery (jsToLower q) then 24
      else if isNewsQuery (jsToLower q) then 24
      else if isTrendingQuery (jsToLower q) then 24
      else if isSentimentQuery (jsToLower q) then 24
      else if containsS (jsToLower q) "hour" then 1 else 24 := by
  simp only [fallbackParse]
  split_ifs <;> rfl

/-- C10: Whenever the fallback classifies a query as a price query, the
intent carries a non-empty symbol list: exactly the recognized tickers
among SOL, BTC, ETH, BONK whose keyword tests fire on the query, and the
default ["SOL"] when none fires. -/
theorem c10_price_symbols (q : String) (hp : isPriceQuery (jsToLower q) = true) :
    ∃ syms : List String,
      (fallbackParse q).cryptoSymbols = some syms ∧
      syms ≠ [] ∧
      (extractSymbols (jsToLower q) = [] → syms = ["SOL"]) ∧
      (extractSymbols (jsToLower q) ≠ [] → syms = extractSymbols (jsToLower q)) ∧
      (∀ s, s ∈ extractSymbols (jsToLower q) ↔
        (s = "SOL" ∧ (containsS (jsToLower q) "sol" || containsS (jsToLower q) "solana") = true) ∨
        (s = "BTC" ∧ (containsS (jsToLower q) "btc" || containsS (jsToLower q) "bitcoin") = true) ∨
        (s = "ETH" ∧ (containsS (jsToLower q) "eth" || containsS (jsToLower q) "ethereum") = true) ∨
        (s = "BONK" ∧ containsS (jsToLower q) "bonk" = true)) := by
  refine ⟨if 0 < (extractSymbols (jsToLower q)).length
    then extractSymbols (jsToLower q) else ["SOL"], ?_, ?_, ?_, ?_,
    fun s => mem_extractSymbols (jsToLower q) s⟩
  · simp [fallbackParse, hp]
  · split
    · next h => exact List.ne_nil_of_length_pos h
    · exact (by decide : (["SOL"] : List String) ≠ [])
  · intro h
    rw [if_neg]
    simp [h]
  · intro h
    rw [if_pos]
    exact List.length_pos.mpr h

/-- C10 witness: "doge price" is a price query mentioning none of the
recognized tickers; its intent silently defaults to ["SOL"]. -/
theorem c10_witness :
    isPriceQuery (jsToLower "doge price") = true ∧
    ∃ syms : List String,
      (fallbackParse "doge price").cryptoSymbols = some syms ∧ syms ≠ [] ∧
      (extractSymbols (jsToLower "doge price") = [] → syms = ["SOL"]) :=
  ⟨by decide,
    Exists.imp (fun _ h => ⟨h.1, h.2.1, h.2.2.1⟩)
      (c10_price_symbols "doge price" (by decide))⟩

/-! ## Claims about the fallback aggregation chain -/

/-- A price record that is non-empty as a list element but fails validation
(price exactly 0). -/
def priceZeroRec : Rec :=
  { name := some (.str "Solana"), symbol := some (.str "SOL"), price := some (.num 0) }

/-- C5 counterexample: The price chain does not validate before
short-circuiting: when CoinGecko returns a single record with price 0 —
i.e. a non-empty raw result whose *validated* form is empty — the chain
still stops at CoinGecko (CoinCap is never fetched, the mock generator
never runs) and the invalid record is returned, contradicting
"short-circuits on the first non-empty **validated** result". -/
theorem c5_counterexample :
    (getPricesTraced { gecko := [priceZeroRec] } ["SOL"]).2 = ["CoinGecko"] ∧
    validateAndCleanData (getPricesTraced { gecko := [priceZeroRec] } ["SOL"]).1 = [] ∧
    (getPricesTraced { gecko := [priceZeroRec] } ["SOL"]).1 ≠ [] := by
  refine ⟨rfl, rfl, by decide⟩

/-- C5 amended: Both fallback chains short-circuit on the first non-empty
*raw* result (no per-provider validation): at every position of the price
chain (CoinGecko, CoinCap, mock) and of the Bonk chain (Bonk API,
DexScreener, Jupiter, mock), once a provider returns a non-empty list that
list is returned as-is, no later provider in the chain is consulted, and
the synthetic generator is not invoked — including the canonical scenario
where an earlier provider fails and a later one succeeds (A fails, B
returns records, C never called, mock never generated).  Over an arbitrary
environment, so the untried providers may hold anything. -/
theorem c5_shortcircuit (env : Env) (p : Rec) (ps : List Rec) (symbols : List String) :
    (getPricesTraced { env with gecko := p :: ps } symbols = (p :: ps, ["CoinGecko"]) ∧
      "CoinCap" ∉ (getPricesTraced { env with gecko := p :: ps } symbols).2 ∧
      "mock" ∉ (getPricesTraced { env with gecko := p :: ps } symbols).2) ∧
    (getPricesTraced { env with gecko := [], cap := p :: ps } symbols =
        (p :: ps, ["CoinGecko", "CoinCap"]) ∧
      "mock" ∉ (getPricesTraced { env with gecko := [], cap := p :: ps } symbols).2) ∧
    (getBonkEcosystemTokensTraced { env with bonkApi := p :: ps } =
        (p :: ps, ["BonkAPI"]) ∧
      "DexScreener" ∉ (getBonkEcosystemTokensTraced { env with bonkApi := p :: ps }).2 ∧
      "Jupiter" ∉ (getBonkEcosystemTokensTraced { env with bonkApi := p :: ps }).2 ∧
      "mock" ∉ (getBonkEcosystemTokensTraced { env with bonkApi := p :: ps }).2) ∧
    (getBonkEcosystemTokensTraced { env with bonkApi := [], bonkDex := p :: ps } =
        (p :: ps, ["BonkAPI", "DexScreener"]) ∧
      "Jupiter" ∉
        (getBonkEcosystemTokensTraced { env with bonkApi := [], bonkDex := p :: ps }).2 ∧
      "mock" ∉
        (getBonkEcosystemTokensTraced { env with bonkApi := [], bonkDex := p :: ps }).2) ∧
    (getBonkEcosystemTokensTraced
        { env with bonkApi := [], bonkDex := [], bonkJup := p :: ps } =
        (p :: ps, ["BonkAPI", "DexScreener", "Jupiter"]) ∧
      "mock" ∉
        (getBonkEcosystemTokensTraced
          { env with bonkApi := [], bonkDex := [], bonkJup := p :: ps }).2) := by
  refine ⟨⟨rfl, ?_, ?_⟩, ⟨rfl, ?_⟩, ⟨rfl, ?_, ?_, ?_⟩, ⟨rfl, ?_, ?_⟩, ⟨rfl, ?_⟩⟩
  · show "CoinCap" ∉ ["CoinGecko"]
    decide
  · show "mock" ∉ ["CoinGecko"]
    decide
  · show "mock" ∉ ["CoinGecko", "CoinCap"]
    decide
  · show "DexScreener" ∉ ["BonkAPI"]
    decide
  · show "Jupiter" ∉ ["BonkAPI"]
    decide
  · show "mock" ∉ ["BonkAPI"]
    decide
  · show "Jupiter" ∉ ["BonkAPI", "DexScreener"]
    decide
  · show "mock" ∉ ["BonkAPI", "DexScreener"]
    decide
  · show "mock" ∉ ["BonkAPI", "DexScreener", "Jupiter"]
    decide

/-- C2 counterexample: With every price provider failing, the route
still reports `sources = ["CoinGecko", "CoinCap"]` (query.ts 54 sets them
unconditionally in the price case): nothing in the result names
"synthetic", contradicting the claimed provenance. -/
theorem c2_counterexample :
    ∃ r, (handleQuery ({} : Env)
        { query := some (.str "What\x27s the SOL price?") }).1 = Except.ok r ∧
      r.metadata.sources = ["CoinGecko", "CoinCap"] ∧
      "synthetic" ∉ r.metadata.sources ∧
      r.data.length = 1 := by
  refine ⟨_, rfl, rfl, by decide, rfl⟩

/-- C2 amended: For the query asking "the SOL price" (resolved by the
fallback parser to a price intent with symbols ["SOL"]), if CoinGecko and
CoinCap both fail or return nothing, the result contains exactly one price
record: symbol "SOL" with the fixed mock price $178.45 (a plausible
positive value), but the metadata sources remain ["CoinGecko",
"CoinCap"] — no "synthetic" provenance is recorded anywhere. -/
theorem c2_all_providers_fail_sol
    (lf li : Option String) (rnd : ℕ → ℚ) (t0 t1 : ℕ)
    (pumpR pumpA bonkR bonkA dT dY dP sent tops news trend n5 : List Rec) :
    ∃ r, (handleQuery
        { llmParse := none, llmFormat := lf, llmIntelligent := li,
          gecko := [], cap := [],
          pumpRecent := pumpR, pumpAbove := pumpA,
          bonkRecent := bonkR, bonkAbove := bonkA,
          defiTvl := dT, defiYield := dY, defiProtocols := dP,
          sentimentData := sent, topCryptos := tops,
          newsData := news, trendingData := trend, news5 := n5,
          rnd := rnd, t0 := t0, t1 := t1 }
        { query := some (.str "What\x27s the SOL price?") }).1 = Except.ok r ∧
      r.data.length = 1 ∧
      (r.data.head?).map Rec.symbol = some (some (.str "SOL")) ∧
      (r.data.head?).map Rec.price = some (some (.num 178.45)) ∧
      (0 : ℚ) < 178.45 ∧
      r.metadata.sources = ["CoinGecko", "CoinCap"] ∧
      "synthetic" ∉ r.metadata.sources := by
  refine ⟨_, rfl, rfl, rfl, rfl, by norm_num, rfl, ?_⟩
  show "synthetic" ∉ ["CoinGecko", "CoinCap"]
  decide

/-! ## The combined-category merge (C9) -/

/-- Does a record carry a numeric `currentMcap`?  (Both token services
always set one; the JS comparator is only well-behaved in that case.) -/
def hasNumMcap (r : Rec) : Bool :=
  match r.currentMcap with
  | some (.num _) => true
  | _ => false

/-- Inserting `a` into `l` in descending-mcap position touches the tie class
of `m` only by prepending `a` when `a` itself has key `m`: every skipped
element has a strictly larger key, so the relative order of equal-key
elements is untouched. -/
lemma filter_orderedInsert_mcap (m : ℚ) (a : Rec) (l : List Rec) :
    (List.orderedInsert mcapDescRel a l).filter (fun r => decide (mcapKey r = m)) =
      (if mcapKey a = m then [a] else []) ++
        l.filter (fun r => decide (mcapKey r = m)) := by
  rw [List.orderedInsert_eq_take_drop, List.filter_append, List.filter_cons]
  by_cases hm : mcapKey a = m
  · have htake :
        (l.takeWhile fun b => decide ¬mcapDescRel a b).filter
          (fun r => decide (mcapKey r = m)) = [] := by
      rw [List.filter_eq_nil_iff]
      intro b hb
      have hw := List.mem_takeWhile_imp hb
      simp only [decide_eq_true_eq] at hw ⊢
      intro hbm
      exact hw (le_of_eq (hbm.trans hm.symm))
    have hl :
        l.filter (fun r => decide (mcapKey r = m)) =
          (l.dropWhile fun b => decide ¬mcapDescRel a b).filter
            (fun r => decide (mcapKey r = m)) := by
      conv_lhs => rw [← List.takeWhile_append_dropWhile
        (p := fun b => decide ¬mcapDescRel a b) (l := l)]
      rw [List.filter_append, htake, List.nil_append]
    rw [htake, if_pos (by simpa using hm), if_pos hm, hl]
    simp
  · rw [if_neg (by simpa using hm), if_neg hm, List.nil_append, ← List.filter_append,
      List.takeWhile_append_dropWhile]

/-- A stable insertion sort by descending mcap leaves every tie class (the
sublist of records with a given key) unchanged. -/
lemma filter_insertionSort_mcap (m : ℚ) (l : List Rec) :
    (List.insertionSort mcapDescRel l).filter (fun r => decide (mcapKey r = m)) =
      l.filter (fun r => decide (mcapKey r = m)) := by
  induction l with
  | nil => rfl
  | cons a l ih =>
    simp only [List.insertionSort]
    rw [filter_orderedInsert_mcap, ih, List.filter_cons]
    by_cases h : mcapKey a = m <;> simp [h]

/-- C9: The `case "both"` data set is the concatenation of the pump.fun
records followed by the Bonk records, stably sorted by descending current
market cap: a permutation of the concatenation, sorted descending, with
every tie class appearing in its original per-source order. -/
theorem c9_both_sorted_stable (env : Env)
    (_hnum : ∀ r ∈ env.pumpRecent ++ env.bonkRecent, hasNumMcap r = true) :
    (dispatchData env
        { platform := .both, metric := .count, timeframe := 24 }).data =
      bothData env.pumpRecent env.bonkRecent ∧
    (bothData env.pumpRecent env.bonkRecent).Perm
      (env.pumpRecent ++ env.bonkRecent) ∧
    List.Sorted mcapDescRel (bothData env.pumpRecent env.bonkRecent) ∧
    ∀ m : ℚ,
      (bothData env.pumpRecent env.bonkRecent).filter
          (fun r => decide (mcapKey r = m)) =
        (env.pumpRecent ++ env.bonkRecent).filter
          (fun r => decide (mcapKey r = m)) :=
  ⟨rfl, List.perm_insertionSort _ _, List.sorted_insertionSort _ _,
    fun m => filter_insertionSort_mcap m _⟩

def tokenRecA : Rec :=
  { name := some (.str "PUMP1"), currentMcap := some (.num 5000) }

def tokenRecB : Rec :=
  { name := some (.str "BONK1"), currentMcap := some (.num 9000) }

/-- C9 witness: Concrete instantiation with one pump.fun and one Bonk
record. -/
theorem c9_witness :
    (dispatchData { pumpRecent := [tokenRecA], bonkRecent := [tokenRecB] }
        { platform := .both, metric := .count, timeframe := 24 }).data =
      bothData [tokenRecA] [tokenRecB] ∧
    (bothData [tokenRecA] [tokenRecB]).Perm ([tokenRecA] ++ [tokenRecB]) ∧
    List.Sorted mcapDescRel (bothData [tokenRecA] [tokenRecB]) ∧
    ∀ m : ℚ,
      (bothData [tokenRecA] [tokenRecB]).filter (fun r => decide (mcapKey r = m)) =
        ([tokenRecA] ++ [tokenRecB]).filter (fun r => decide (mcapKey r = m)) :=
  c9_both_sorted_stable
    { pumpRecent := [tokenRecA], bonkRecent := [tokenRecB] } (by decide)

/-! ## The query route (C1) -/

/-- Every tier of the three-tier answer fallback produces non-empty text. -/
lemma generateIntelligentFallbackResponse_ne_empty (query : String) (t : ℤ)
    (li : Option String) : generateIntelligentFallbackResponse query t li ≠ "" := by
  unfold generateIntelligentFallbackResponse
  cases li with
  | some s =>
    dsimp only
    refine append_ne_empty_right _ _ ?_
    decide
  | none =>
    dsimp only
    split
    · refine append_ne_empty_right _ _ ?_
      decide
    · split
      · refine append_ne_empty_right _ _ ?_
        decide
      · refine append_ne_empty_right _ _ ?_
        decide

/-- The synthesized answer is non-empty on every path: language-model
content (with its empty-content guard), the intelligent fallback, and each
static template. -/
lemma formatResponse_ne_empty (query : String) (data : List Rec) (t : ℤ)
    (lf li : Option String) : formatResponse query data t lf li ≠ "" := by
  unfold formatResponse
  dsimp only
  split
  · exact generateIntelligentFallbackResponse_ne_empty _ _ _
  · cases lf with
    | some content =>
      dsimp only
      split
      · decide
      · next h => simpa using h
    | none =>
      dsimp only
      split_ifs <;> (refine append_ne_empty_right _ _ ?_; decide)

/-- C1: With a monotone clock (`Date.now()` at the end is not before the
start), a request whose `query` is a non-empty string always yields an
`ok` result with a non-empty answer and non-negative processing time — no
error escapes past input validation, because every provider and
language-model failure is normalized inside the services; a request whose
`query` is missing, not a string, or the empty string is rejected with the
400 response before the parser or any provider runs (empty invocation
trace). -/
theorem c1_handle_query (env : Env) (body : ReqBody) (hclock : env.t0 ≤ env.t1) :
    ((∃ s, body.query = some (JSVal.str s) ∧ s ≠ "") →
      ∃ r, (handleQuery env body).1 = Except.ok r ∧
        r.answer ≠ "" ∧ 0 ≤ r.processingTime) ∧
    ((∀ s, body.query = some (JSVal.str s) → s = "") →
      handleQuery env body = (Except.error badRequest, [])) := by
  obtain ⟨bq⟩ := body
  constructor
  · rintro ⟨s, hq, hs⟩
    cases bq with
    | none => exact absurd hq (by simp)
    | some v =>
      cases v with
      | other => exact absurd hq (by simp)
      | str s' =>
        have hss : s' = s := by simpa using hq
        subst hss
        simp only [handleQuery]
        rw [if_neg (by simpa using hs)]
        refine ⟨_, rfl, formatResponse_ne_empty _ _ _ _ _, ?_⟩
        show (0 : ℤ) ≤ (env.t1 : ℤ) - (env.t0 : ℤ)
        omega
  · intro h
    cases bq with
    | none => rfl
    | some v =>
      cases v with
      | other => rfl
      | str s =>
        have hs := h s rfl
        subst hs
        rfl

/-- C1 witness: A concrete valid query yields `ok` with a non-empty
answer and non-negative time; a concrete non-string query is rejected with
the 400 response and an empty trace. -/
theorem c1_witness :
    (∃ r, (handleQuery ({} : Env) { query := some (.str "sol price") }).1 = Except.ok r ∧
      r.answer ≠ "" ∧ 0 ≤ r.processingTime) ∧
    handleQuery ({} : Env) { query := some JSVal.other } = (Except.error badRequest, []) :=
  ⟨(c1_handle_query ({} : Env) { query := some (.str "sol price") } (by decide)).1
      ⟨"sol price", rfl, by decide⟩,
    (c1_handle_query ({} : Env) { query := some JSVal.other } (by decide)).2
      (fun s hs => by simp at hs)⟩

end DelLazar
